import Mathlib

/-
Verification of the Infosys-Springboard-PCG repository: the React resume-builder
frontend (shallowly embedded from the TypeScript sources) and the RAG
cover-letter backend (modelled from the specification, since the Python
sources are not part of the repository snapshot — only their documentation).
The float components of embedding vectors are modelled as exact integers
(the structural and ordering claims under study do not depend on rounding).
-/

namespace PCG

/-! ## Frontend data model: src/data/resumeTemplates.ts -/

/-- Section-visibility flags of a resume template
(field `sections` of `ResumeTemplate` in resumeTemplates.ts). -/
structure TemplateSections where
  showExperience : Bool
  showProjects : Bool
  showSkills : Bool
  showActivities : Bool
  showCertifications : Bool
  showObjective : Bool
  showAchievements : Bool
deriving DecidableEq, Repr

/-- The `ResumeTemplate` interface of resumeTemplates.ts.  Template categories
are the TypeScript string-literal union `TemplateCategory`, embedded as
strings. -/
structure ResumeTemplate where
  id : String
  name : String
  description : String
  categories : List String
  thumbnail : String
  accentColor : String
  sections : TemplateSections
deriving DecidableEq, Repr

/-- The shipped `resumeTemplates` array of resumeTemplates.ts, embedded
verbatim. -/
def resumeTemplates : List ResumeTemplate := [
  { id := "modern-tech",
    name := "Modern Tech Pro",
    description := "Clean, ATS-friendly design perfect for software developers and engineers. Highlights technical skills and projects.",
    categories := ["technical", "experienced"],
    thumbnail := "tech",
    accentColor := "hsl(199 89% 48%)",
    sections := ⟨true, true, true, false, true, false, true⟩ },
  { id := "fresh-graduate",
    name := "Fresh Start",
    description := "Designed for new graduates. Emphasizes education, projects, and extracurricular activities over work experience.",
    categories := ["fresher", "technical"],
    thumbnail := "fresher",
    accentColor := "hsl(172 66% 50%)",
    sections := ⟨false, true, true, true, true, true, false⟩ },
  { id := "executive-classic",
    name := "Executive Classic",
    description := "Sophisticated design for senior professionals. Showcases leadership experience and strategic achievements.",
    categories := ["executive", "experienced", "non-technical"],
    thumbnail := "executive",
    accentColor := "hsl(25 95% 53%)",
    sections := ⟨true, false, true, false, true, false, true⟩ },
  { id := "creative-portfolio",
    name := "Creative Edge",
    description := "Bold and artistic layout for designers, marketers, and creative professionals. Stands out from the crowd.",
    categories := ["creative", "non-technical"],
    thumbnail := "creative",
    accentColor := "hsl(280 65% 60%)",
    sections := ⟨true, true, true, true, false, true, false⟩ },
  { id := "minimal-clean",
    name := "Minimal Pro",
    description := "Ultra-clean minimalist design. Perfect for professionals who want their content to speak for itself.",
    categories := ["technical", "experienced"],
    thumbnail := "minimal",
    accentColor := "hsl(222 47% 11%)",
    sections := ⟨true, true, true, false, true, false, true⟩ },
  { id := "student-intern",
    name := "Student Focus",
    description := "Tailored for students seeking internships. Highlights coursework, projects, and extracurricular involvement.",
    categories := ["fresher", "non-technical"],
    thumbnail := "student",
    accentColor := "hsl(160 84% 39%)",
    sections := ⟨false, true, true, true, true, true, false⟩ }
]

/-! ## ResumePreview component (section-visibility logic) -/

/-- The `experienceType` prop of `ResumePreview`: the TypeScript union
`'experienced' | 'fresher'`. -/
inductive ExperienceType where
  | experienced
  | fresher
deriving DecidableEq, Repr

/-- `isFresher` of `ResumePreview`: `experienceType === 'fresher'`. -/
def isFresher (e : ExperienceType) : Bool := e = ExperienceType.fresher

/-- `showExperience` of `ResumePreview`:
`!isFresher && template.sections.showExperience`.  The Professional
Experience section is rendered only when this flag is true (the JSX guard is
`showExperience && data.experience.length > 0`). -/
def showExperienceFlag (t : ResumeTemplate) (e : ExperienceType) : Bool :=
  !(isFresher e) && t.sections.showExperience

/-! ## Templates page (filteredTemplates logic) -/

/-- Whether the character list `hay` starts with the character list
`needle` (helper for the JS `String.prototype.includes` semantics). -/
def startsWithChars : List Char → List Char → Bool
  | _, [] => true
  | [], _ :: _ => false
  | h :: hs, n :: ns => h == n && startsWithChars hs ns

/-- Whether `needle` occurs as a contiguous substring of `hay`
(JS `String.prototype.includes` on character lists; the empty needle is
always contained). -/
def containsSub : List Char → List Char → Bool
  | [], needle => needle.isEmpty
  | c :: rest, needle => startsWithChars (c :: rest) needle || containsSub rest needle

/-- JS `String.prototype.toLowerCase`, restricted to the ASCII data the
templates actually contain. -/
def jsToLower (s : String) : String := ⟨s.data.map Char.toLower⟩

/-- JS `a.includes(b)` for strings. -/
def jsIncludes (s sub : String) : Bool := containsSub s.data sub.data

/-- `matchesSearch` of the `Templates` page:
`template.name.toLowerCase().includes(q.toLowerCase()) ||
 template.description.toLowerCase().includes(q.toLowerCase())`. -/
def matchesSearch (t : ResumeTemplate) (searchQuery : String) : Bool :=
  jsIncludes (jsToLower t.name) (jsToLower searchQuery) ||
  jsIncludes (jsToLower t.description) (jsToLower searchQuery)

/-- `matchesCategory` of the `Templates` page:
`activeFilter === 'all' || template.categories.includes(activeFilter)`. -/
def matchesCategory (t : ResumeTemplate) (activeFilter : String) : Bool :=
  activeFilter == "all" || t.categories.contains activeFilter

/-- `filteredTemplates` of the `Templates` page: `resumeTemplates.filter`
of the conjunction of the search match and the category match. -/
def filteredTemplates (searchQuery activeFilter : String) : List ResumeTemplate :=
  resumeTemplates.filter (fun t => matchesSearch t searchQuery && matchesCategory t activeFilter)

/-! ## TemplatePreview page -/

/-- What the `TemplatePreview` component renders: the Template Not Found
fallback, or the preview of a found template. -/
inductive PreviewRender where
  | notFound
  | preview (t : ResumeTemplate)
deriving DecidableEq, Repr

/-- The `TemplatePreview` component: `useParams()` yields
`templateId : string | undefined` (embedded as `Option String`);
`resumeTemplates.find(t => t.id === templateId)` either finds a template —
rendered as a preview — or yields `undefined`, in which case the
Template Not Found fallback is rendered without touching any template
field. -/
def templatePreviewRender (templateId : Option String) : PreviewRender :=
  match resumeTemplates.find? (fun t => some t.id == templateId) with
  | none => PreviewRender.notFound
  | some t => PreviewRender.preview t

/-! ## Backend data model (modelled from the spec) -/

/-- Modelled from the spec: the Chunk of section 3 — the retrievable unit
produced by the Chunk Builder of data_loader.py, whose source is absent from
the snapshot.  Metadata fields are flattened into the structure. -/
structure Chunk where
  text : String
  source : String
  role : String
  experience_type : String
deriving DecidableEq, Repr

/-- Modelled from the spec: the Vector Index of section 4.2 (rag_system.py,
absent from the snapshot) — a vector store and a parallel, id-aligned
metadata store.  Vector components (floats in the source) are modelled as
exact integers. -/
structure VectorIndex where
  vectors : List (List ℤ)
  metadata : List Chunk
deriving DecidableEq, Repr

/-- The index-alignment invariant of section 3: the vector store and the
metadata store hold the same number of entries. -/
def VectorIndex.aligned (ix : VectorIndex) : Prop :=
  ix.vectors.length = ix.metadata.length

instance (ix : VectorIndex) : Decidable ix.aligned :=
  inferInstanceAs (Decidable (_ = _))

/-- Modelled from the spec: an append to the index is a single logical step
appending to both stores. -/
def VectorIndex.appendEntry (ix : VectorIndex) (v : List ℤ) (c : Chunk) : VectorIndex :=
  ⟨ix.vectors ++ [v], ix.metadata ++ [c]⟩

/-- The id-carrying entries of the index: entry `i` pairs id `i` with the
`i`-th vector and the `i`-th chunk. -/
def VectorIndex.entriesFrom : ℕ → List (List ℤ × Chunk) → List (ℕ × List ℤ × Chunk)
  | _, [] => []
  | i, p :: ps => (i, p) :: VectorIndex.entriesFrom (i + 1) ps

/-- The entry list of an index, ids assigned by position. -/
def VectorIndex.entries (ix : VectorIndex) : List (ℕ × List ℤ × Chunk) :=
  VectorIndex.entriesFrom 0 (ix.vectors.zip ix.metadata)

/-- Modelled from the spec: `save(path)` persists the vector store and the
metadata store as a matched pair (section 6, Persisted state). -/
def saveIndex (ix : VectorIndex) : List (List ℤ) × List Chunk :=
  (ix.vectors, ix.metadata)

/-- Modelled from the spec: `load(path)` restores both stores as a unit and
fails closed with `IntegrityError` when the entry counts differ
(section 4.2 and section 7). -/
def loadIndex (vecs : List (List ℤ)) (meta : List Chunk) : Except String VectorIndex :=
  if vecs.length = meta.length then Except.ok ⟨vecs, meta⟩
  else Except.error "IntegrityError"

/-! ## Backend search (modelled from the spec) -/

/-- Squared Euclidean distance between a query vector and a stored vector
(brute-force exact search, section 4.2 algorithm notes). -/
def distSq (q v : List ℤ) : ℤ :=
  ((q.zip v).map (fun p => (p.1 - p.2) * (p.1 - p.2))).sum

/-- Ordering of scored items by ascending distance (second component). -/
def bySnd {α : Type} (a b : α × ℤ) : Prop := a.2 ≤ b.2

instance {α : Type} : DecidableRel (@bySnd α) :=
  fun a b => inferInstanceAs (Decidable (a.2 ≤ b.2))

instance {α : Type} : IsTotal (α × ℤ) bySnd := ⟨fun a b => le_total a.2 b.2⟩

instance {α : Type} : IsTrans (α × ℤ) bySnd := ⟨fun _ _ _ h1 h2 => le_trans h1 h2⟩

/-- Scores the vectors of the store against a query, pairing each id (its
position, counted from `i`) with its distance to the query. -/
def scoreFrom (q : List ℤ) : ℕ → List (List ℤ) → List (ℕ × ℤ)
  | _, [] => []
  | i, v :: vs => (i, distSq q v) :: scoreFrom q (i + 1) vs

/-- All (id, distance) pairs of an index for a query. -/
def scoredEntries (ix : VectorIndex) (q : List ℤ) : List (ℕ × ℤ) :=
  scoreFrom q 0 ix.vectors

/-- The scored entries sorted by ascending distance. -/
def sortedEntries (ix : VectorIndex) (q : List ℤ) : List (ℕ × ℤ) :=
  List.insertionSort bySnd (scoredEntries ix q)

/-- Modelled from the spec: `search(query_vector, k)` of section 4.2
(rag_system.py, absent from the snapshot) — rejects `k <= 0` as invalid
input, otherwise returns up to `k` (id, distance) entries ordered by
ascending distance. -/
def VectorIndex.search (ix : VectorIndex) (q : List ℤ) (k : ℤ) :
    Except String (List (ℕ × ℤ)) :=
  if k ≤ 0 then Except.error "invalid k"
  else Except.ok ((sortedEntries ix q).take k.toNat)

/-! ## Backend retrieval (modelled from the spec) -/

/-- Each chunk of the index paired with its distance to the query (the
vector store and metadata store walked in parallel). -/
def scoredChunks (ix : VectorIndex) (q : List ℤ) : List (Chunk × ℤ) :=
  (ix.vectors.zip ix.metadata).map (fun p => (p.2, distSq q p.1))

/-- Modelled from the spec: `retrieve(query, k, role_filter?)` of
section 4.3 (rag_system.py retrieve_context, absent from the snapshot) —
rank-then-filter, the default fixed by the section 9 design note: take the
`k` best-ranked chunks, then optionally keep only those whose role matches
the filter; ranking is not reapplied after filtering. -/
def retrieve (ix : VectorIndex) (q : List ℤ) (k : ℕ) (roleFilter : Option String) :
    List (Chunk × ℤ) :=
  let top := (List.insertionSort bySnd (scoredChunks ix q)).take k
  match roleFilter with
  | none => top
  | some r => top.filter (fun e => e.1.role == r)

/-! ## Backend post-processing and generation (modelled from the spec) -/

/-- Modelled from the spec: the markup glyphs stripped by post-processing
step 1 of section 4.4 — header marks, emphasis markers and bullet glyphs. -/
def markupChars : List Char := ['#', '*', '•', '-', '_', '`']

/-- Post-processing step 1: strip all markup glyphs from the text. -/
def stripMarkup (s : String) : String :=
  ⟨s.data.filter (fun c => !(markupChars.contains c))⟩

/-- Post-processing step 3: collapse repeated blank lines — at most two
consecutive newlines survive.  `prevNl` counts the newlines seen
immediately before the current position. -/
def squeezeBlank (prevNl : ℕ) : List Char → List Char
  | [] => []
  | c :: rest =>
    if c = '\n' then
      if 2 ≤ prevNl then squeezeBlank prevNl rest
      else c :: squeezeBlank (prevNl + 1) rest
    else c :: squeezeBlank 0 rest

/-- Modelled from the spec: the unconditional post-processing of
section 4.4 (llm_service.py, absent from the snapshot) — strip markup
glyphs, then collapse repeated blank lines. -/
def postProcess (s : String) : String :=
  ⟨squeezeBlank 0 (stripMarkup s).data⟩

/-- Whether a character separates words. -/
def isWordSep (c : Char) : Bool :=
  c == ' ' || c == '\n' || c == '\t' || c == '\r'

/-- Counts the maximal non-separator runs of a character list; `inWord`
records whether the previous character belonged to a word. -/
def countWords (inWord : Bool) : List Char → ℕ
  | [] => 0
  | c :: rest =>
    if isWordSep c then countWords false rest
    else (if inWord then 0 else 1) + countWords true rest

/-- Modelled from the spec: the word count of a document — the number of
non-empty whitespace-separated tokens (post-processing step 4 of
section 4.4). -/
def wordCount (s : String) : ℕ := countWords false s.data

/-- The Generation Result of section 3 (success case). -/
structure GenResult where
  cover_letter : String
  word_count : ℕ
  retrieved_context_count : ℕ
deriving DecidableEq, Repr

/-- Modelled from the spec: the fixed system instruction of the generation
prompt (section 4.4). -/
def systemInstruction : String :=
  "You are an expert cover letter writer. Use only the given resume, job description, and retrieved context. Never invent skills, employers, or credentials. Target length 300-400 words. Formal tone. No generic boilerplate openers."

/-- Modelled from the spec: prompt construction of section 4.4 — the fixed
system instruction, the user-supplied resume and job description, and the
retrieved context chunks, each attributed to its source. -/
def buildPrompt (resume jd company role : String) (ctx : List (Chunk × ℤ)) : String :=
  systemInstruction ++ "\n" ++ resume ++ "\n" ++ jd ++ "\n" ++ company ++ "\n" ++ role
    ++ "\n" ++ String.intercalate "\n" (ctx.map (fun e => e.1.source ++ ": " ++ e.1.text))

/-- Modelled from the spec: the Generation Service of section 4.4
(llm_service.py, absent from the snapshot).  The generation capability is
an injected function `gen`; its raw output is post-processed
unconditionally and the word count is recomputed on the cleaned text. -/
def generateService (gen : String → String) (prompt : String) (ctxCount : ℕ) : GenResult :=
  let cleaned := postProcess (gen prompt)
  ⟨cleaned, wordCount cleaned, ctxCount⟩

/-! ## Request boundary and orchestrator (modelled from the spec) -/

/-- Modelled from the spec: the inbound request of section 6 as received —
every field may be absent; `experience_type` and `top_k` have defaults. -/
structure InboundPayload where
  resume_content : Option String
  job_description : Option String
  company_name : Option String
  job_role : Option String
  experience_type : Option String
  top_k : Option ℤ
deriving DecidableEq, Repr

/-- The Generation Request of section 3, after parsing and defaulting. -/
structure GenRequest where
  resume_content : String
  job_description : String
  company_name : String
  job_role : String
  experience_type : String
  top_k : ℤ
deriving DecidableEq, Repr

/-- Modelled from the spec: parsing an inbound payload — the four required
fields must be present; an omitted `experience_type` defaults to
"experienced" and an omitted `top_k` defaults to 5 (section 6). -/
def parseRequest (p : InboundPayload) : Option GenRequest :=
  match p.resume_content, p.job_description, p.company_name, p.job_role with
  | some rc, some jd, some cn, some jr =>
      some ⟨rc, jd, cn, jr, p.experience_type.getD "experienced", p.top_k.getD 5⟩
  | _, _, _, _ => none

/-- Modelled from the spec: the Validating stage of section 4.5 —
`resume_content` and `job_description` non-empty and `top_k` in [1,10]. -/
def validateRequest (r : GenRequest) : Bool :=
  !r.resume_content.isEmpty && !r.job_description.isEmpty
    && decide (1 ≤ r.top_k) && decide (r.top_k ≤ 10)

/-- Modelled from the spec: deterministic query construction of
section 4.3 — role, company and experience type concatenated in a fixed
order. -/
def buildQuery (r : GenRequest) : String :=
  r.job_role ++ " " ++ r.company_name ++ " " ++ r.experience_type

/-- The outcome of one orchestrated request: the shaped response plus the
number of embedding and generation capability invocations made while
handling it. -/
structure PipelineOutcome where
  response : Except String GenResult
  embedCalls : ℕ
  genCalls : ℕ
deriving Repr

/-- Modelled from the spec: the Request Orchestrator of section 4.5
(main.py, absent from the snapshot).  Validation happens before any
embedding or generation call; a request that fails to parse or validate is
rejected with `InvalidRequest` and zero capability invocations.  On the
valid path the query is embedded (one embedding call), context is
retrieved rank-then-filter, and the generation capability is invoked once. -/
def handleRequest (ix : VectorIndex) (embed : String → List ℤ) (gen : String → String)
    (roleFilter : Option String) (p : InboundPayload) : PipelineOutcome :=
  match parseRequest p with
  | none => ⟨Except.error "InvalidRequest", 0, 0⟩
  | some r =>
    if validateRequest r then
      let q := embed (buildQuery r)
      let ctx := retrieve ix q r.top_k.toNat roleFilter
      let prompt := buildPrompt r.resume_content r.job_description r.company_name r.job_role ctx
      ⟨Except.ok (generateService gen prompt ctx.length), 1, 1⟩
    else ⟨Except.error "InvalidRequest", 0, 0⟩

/-! ## Frontend request form (FRONTEND_INTEGRATION.md) -/

/-- The `formData` state shape of the `CoverLetterGenerator` React
component in FRONTEND_INTEGRATION.md. -/
structure FormData where
  resume_content : String
  job_description : String
  company_name : String
  job_role : String
  experience_type : String
  top_k : ℤ
deriving DecidableEq, Repr

/-- The initial `formData` state of `CoverLetterGenerator`
(FRONTEND_INTEGRATION.md): empty strings, `experience_type: 'experienced'`,
`top_k: 5`. -/
def initialFormData : FormData :=
  ⟨"", "", "", "", "experienced", 5⟩



/-- A concrete two-entry index used by witnesses: chunk 0 has role "a" and
lies at distance 0 from the query [0]; chunk 1 has role "b" at distance 1. -/
def sampleIndex : VectorIndex :=
  ⟨[[0], [1]], [⟨"resume text a", "resume", "a", "experienced"⟩,
                ⟨"jd text b", "job_description", "b", "experienced"⟩]⟩

/-- A stub generation capability used by witnesses. -/
def genStub : String → String := fun _ => "# Hello *world* from stub"

/-- A stub embedding capability used by witnesses. -/
def embedStub : String → List ℤ := fun _ => [0]

-- ### theorems

/-- C8: for every template, a fresher preview never shows the Professional
Experience section (the flag is the conjunction of not-fresher and the
template flag), and in the shipped template data every template carrying the
"fresher" category has `sections.showExperience = false`. -/
theorem claim_C8 :
    (∀ t : ResumeTemplate, showExperienceFlag t ExperienceType.fresher = false) ∧
    resumeTemplates.all
      (fun t => !(t.categories.contains "fresher") || !t.sections.showExperience) = true :=
  ⟨fun _ => rfl, by decide⟩

/-- C9: a template is kept by the Templates-page filter exactly when its
name or description contains the search query case-insensitively and the
active category filter is "all" or occurs among its categories; with the
empty query and the "all" filter every shipped template is shown. -/
theorem claim_C9 :
    (∀ (t : ResumeTemplate) (q f : String),
      t ∈ filteredTemplates q f ↔
        t ∈ resumeTemplates ∧ (matchesSearch t q && matchesCategory t f) = true) ∧
    filteredTemplates "" "all" = resumeTemplates :=
  ⟨fun _ _ _ => by simp [filteredTemplates, List.mem_filter], rfl⟩

/-- C10: when no shipped template has the requested id, `TemplatePreview`
renders the Template Not Found fallback; the find-returns-undefined branch
is handled totally. -/
theorem claim_C10 (tid : Option String)
    (h : ∀ t ∈ resumeTemplates, some t.id ≠ tid) :
    templatePreviewRender tid = PreviewRender.notFound := by
  unfold templatePreviewRender
  have hfind : resumeTemplates.find? (fun t => some t.id == tid) = none := by
    rw [List.find?_eq_none]
    intro t ht
    simp only [beq_iff_eq]
    exact h t ht
  rw [hfind]

theorem claim_C10_witness :
    templatePreviewRender (some "missing-template") = PreviewRender.notFound :=
  claim_C10 (some "missing-template") (by decide)

/-- C7: an inbound request omitting `experience_type` and `top_k` parses
with the defaults "experienced" and 5, and the `CoverLetterGenerator`
request-form state is initialized with exactly those defaults. -/
theorem claim_C7 :
    (∀ rc jd cn jr, parseRequest ⟨some rc, some jd, some cn, some jr, none, none⟩ =
        some ⟨rc, jd, cn, jr, "experienced", 5⟩) ∧
    initialFormData.experience_type = "experienced" ∧ initialFormData.top_k = 5 :=
  ⟨fun _ _ _ _ => rfl, rfl, rfl⟩

/-- Entry ids assigned by `entriesFrom` starting at `s` are `s + position`. -/
theorem entriesFrom_get_fst (l : List (List ℤ × Chunk)) :
    ∀ (s i : ℕ) (h : i < (VectorIndex.entriesFrom s l).length),
      ((VectorIndex.entriesFrom s l).get ⟨i, h⟩).1 = s + i := by
  induction l with
  | nil => intro s i h; simp [VectorIndex.entriesFrom] at h
  | cons p ps ih =>
    intro s i h
    cases i with
    | zero => rfl
    | succ n =>
      exact (ih (s + 1) n (Nat.lt_of_succ_lt_succ h)).trans (by omega)

/-- C1: appending an entry appends to both stores in one step and preserves
alignment; each entry's id is its position in the (zipped) stores; loading a
vector store whose entry count differs from its metadata store's count fails
closed with IntegrityError; any successfully loaded index is aligned. -/
theorem claim_C1 :
    (∀ (ix : VectorIndex) (v : List ℤ) (c : Chunk),
       ix.aligned → (ix.appendEntry v c).aligned) ∧
    (∀ (ix : VectorIndex) (i : ℕ) (h : i < ix.entries.length),
       (ix.entries.get ⟨i, h⟩).1 = i) ∧
    (∀ (vecs : List (List ℤ)) (meta : List Chunk),
       vecs.length ≠ meta.length → loadIndex vecs meta = Except.error "IntegrityError") ∧
    (∀ (vecs : List (List ℤ)) (meta : List Chunk) (ix : VectorIndex),
       loadIndex vecs meta = Except.ok ix → ix.aligned) := by
  refine ⟨?_, ?_, ?_, ?_⟩
  · intro ix v c h
    simp only [VectorIndex.aligned, VectorIndex.appendEntry, List.length_append,
      List.length_singleton] at h ⊢
    omega
  · intro ix i h
    simpa using entriesFrom_get_fst (ix.vectors.zip ix.metadata) 0 i h
  · intro vecs meta h
    unfold loadIndex
    rw [if_neg h]
  · intro vecs meta ix h
    unfold loadIndex at h
    split at h
    · cases h; assumption
    · cases h

theorem claim_C1_witness :
    (VectorIndex.appendEntry sampleIndex [2] ⟨"t", "resume", "c", "fresher"⟩).aligned ∧
    loadIndex [[1]] [] = Except.error "IntegrityError" :=
  ⟨claim_C1.1 sampleIndex [2] ⟨"t", "resume", "c", "fresher"⟩ (by decide),
   claim_C1.2.2.1 [[1]] [] (by decide)⟩

/-- C5: saving an aligned index and loading the saved pair succeeds and
yields an index whose search results agree with the original on every query
vector and every k. -/
theorem claim_C5 (ix : VectorIndex) (h : ix.aligned) :
    ∃ ix2, loadIndex (saveIndex ix).1 (saveIndex ix).2 = Except.ok ix2 ∧
      ∀ (q : List ℤ) (k : ℤ), ix2.search q k = ix.search q k := by
  exact ⟨ix, if_pos h, fun q k => rfl⟩

theorem claim_C5_witness :
    ∃ ix2, loadIndex (saveIndex sampleIndex).1 (saveIndex sampleIndex).2 = Except.ok ix2 ∧
      ∀ (q : List ℤ) (k : ℤ), ix2.search q k = sampleIndex.search q k :=
  claim_C5 sampleIndex (by decide)

/-- `scoreFrom` scores every vector: the output has one entry per vector. -/
theorem scoreFrom_length (q : List ℤ) :
    ∀ (s : ℕ) (l : List (List ℤ)), (scoreFrom q s l).length = l.length := by
  intro s l
  induction l generalizing s with
  | nil => rfl
  | cons v vs ih => simp [scoreFrom, ih]

/-- The sorted entry list has one entry per stored vector. -/
theorem sortedEntries_length (ix : VectorIndex) (q : List ℤ) :
    (sortedEntries ix q).length = ix.vectors.length := by
  simp [sortedEntries, scoredEntries, scoreFrom_length]

/-- C2: `search` rejects `k <= 0`; for `k >= 1` it succeeds with exactly
`min k n` entries (hence at most `k`, and all `n` of them when the index
holds fewer than `k`), ordered by ascending distance, and when the index
holds fewer than `k` entries the result is a permutation of all scored
entries. -/
theorem claim_C2 (ix : VectorIndex) (q : List ℤ) (k : ℤ) :
    (k ≤ 0 → ∃ msg, ix.search q k = Except.error msg) ∧
    (1 ≤ k → ∃ res, ix.search q k = Except.ok res ∧
       res.length = min k.toNat ix.vectors.length ∧
       res.Pairwise bySnd ∧
       (ix.vectors.length < k.toNat → res.Perm (scoredEntries ix q))) := by
  constructor
  · intro hk
    refine ⟨"invalid k", ?_⟩
    unfold VectorIndex.search
    rw [if_pos hk]
  · intro hk
    have hk0 : ¬ k ≤ 0 := by omega
    refine ⟨(sortedEntries ix q).take k.toNat, ?_, ?_, ?_, ?_⟩
    · unfold VectorIndex.search
      rw [if_neg hk0]
    · rw [List.length_take, sortedEntries_length]
    · exact List.Pairwise.sublist (List.take_sublist _ _)
        (List.sorted_insertionSort bySnd (scoredEntries ix q))
    · intro hlt
      rw [List.take_of_length_le (by rw [sortedEntries_length]; omega)]
      exact List.perm_insertionSort bySnd _

theorem claim_C2_witness :
    (∃ msg, sampleIndex.search [0] 0 = Except.error msg) ∧
    (∃ res, sampleIndex.search [0] 3 = Except.ok res ∧
       res.length = min (3 : ℤ).toNat sampleIndex.vectors.length ∧
       res.Pairwise bySnd ∧
       (sampleIndex.vectors.length < (3 : ℤ).toNat →
         res.Perm (scoredEntries sampleIndex [0]))) :=
  ⟨(claim_C2 sampleIndex [0] 0).1 (by decide),
   (claim_C2 sampleIndex [0] 3).2 (by decide)⟩

/-- The chunk scoring walks the two stores in parallel. -/
theorem scoredChunks_length (ix : VectorIndex) (q : List ℤ) :
    (scoredChunks ix q).length = min ix.vectors.length ix.metadata.length := by
  simp [scoredChunks]

/-- C3 counterexample: `sampleIndex` holds one chunk whose role matches the
filter "b" and the request uses `top_k = 1`, yet rank-then-filter retrieval
returns zero items — the nearest chunk has role "a" and is dropped by the
filter, so the count does not equal `k`. -/
theorem claim_C3_counterexample :
    1 ≤ (sampleIndex.metadata.filter (fun c => c.role == "b")).length ∧
    retrieve sampleIndex [0] 1 (some "b") = [] ∧
    (retrieve sampleIndex [0] 1 (some "b")).length ≠ 1 := by decide

/-- C3 (amended): the retrieved-context count never exceeds `k`, and it
equals `k` whenever no role filter is given and the aligned index holds at
least `k` chunks.  (Under a role filter, rank-then-filter may return fewer
than `k` even when `k` matching chunks exist.) -/
theorem claim_C3 (ix : VectorIndex) (q : List ℤ) (k : ℕ) (rf : Option String) :
    (retrieve ix q k rf).length ≤ k ∧
    (rf = none → ix.aligned → k ≤ ix.vectors.length →
      (retrieve ix q k rf).length = k) := by
  constructor
  · cases rf with
    | none =>
      simp only [retrieve, List.length_take]
      omega
    | some r =>
      refine le_trans (List.length_filter_le _ _) ?_
      simp only [List.length_take]
      omega
  · intro hrf hal hk
    subst hrf
    simp only [retrieve, List.length_take, List.length_insertionSort, scoredChunks_length]
    unfold VectorIndex.aligned at hal
    omega

theorem claim_C3_witness :
    (retrieve sampleIndex [0] 2 none).length ≤ 2 ∧
    (retrieve sampleIndex [0] 2 none).length = 2 :=
  ⟨(claim_C3 sampleIndex [0] 2 none).1,
   (claim_C3 sampleIndex [0] 2 none).2 rfl (by decide) (by decide)⟩

/-- Collapsing blank lines only removes characters: every character of the
output already occurs in the input. -/
theorem squeezeBlank_subset (c : Char) :
    ∀ (n : ℕ) (l : List Char), c ∈ squeezeBlank n l → c ∈ l := by
  intro n l
  induction l generalizing n with
  | nil => intro h; simp [squeezeBlank] at h
  | cons a rest ih =>
    intro h
    simp only [squeezeBlank] at h
    by_cases ha : a = '\n'
    · rw [if_pos ha] at h
      by_cases hn : 2 ≤ n
      · rw [if_pos hn] at h
        exact List.mem_cons_of_mem _ (ih _ h)
      · rw [if_neg hn] at h
        rcases List.mem_cons.mp h with h | h
        · simp [h]
        · exact List.mem_cons_of_mem _ (ih _ h)
    · rw [if_neg ha] at h
      rcases List.mem_cons.mp h with h | h
      · simp [h]
      · exact List.mem_cons_of_mem _ (ih _ h)

/-- No markup glyph survives `stripMarkup`. -/
theorem stripMarkup_no_markup (s : String) (c : Char)
    (h : c ∈ (stripMarkup s).data) : c ∉ markupChars := by
  replace h : c ∈ s.data.filter (fun c => !(markupChars.contains c)) := h
  have hp := (List.mem_filter.mp h).2
  intro hc
  rw [Bool.not_eq_true', ← Bool.not_eq_true] at hp
  exact hp (List.elem_iff.mpr hc)

/-- C4: for every generation capability and prompt, the `word_count` of the
generation result equals the recomputed word count of its post-processed
`cover_letter`, and the post-processed `cover_letter` contains no markup
glyph. -/
theorem claim_C4 (gen : String → String) (prompt : String) (n : ℕ) :
    (generateService gen prompt n).word_count =
      wordCount (generateService gen prompt n).cover_letter ∧
    ∀ c ∈ (generateService gen prompt n).cover_letter.data, c ∉ markupChars := by
  refine ⟨rfl, ?_⟩
  intro c hc
  replace hc : c ∈ squeezeBlank 0 (stripMarkup (gen prompt)).data := hc
  exact stripMarkup_no_markup (gen prompt) c (squeezeBlank_subset c 0 _ hc)

theorem claim_C4_witness :
    (generateService genStub "p" 2).word_count =
      wordCount (generateService genStub "p" 2).cover_letter ∧
    'H' ∉ markupChars :=
  ⟨(claim_C4 genStub "p" 2).1, (claim_C4 genStub "p" 2).2 'H' (by decide)⟩

/-- C6: a request that is missing a required field, or whose `top_k` lies
outside [1,10], is rejected with `InvalidRequest` and the orchestrator makes
zero embedding calls and zero generation calls. -/
theorem claim_C6 (ix : VectorIndex) (embed : String → List ℤ)
    (gen : String → String) (rf : Option String) (p : InboundPayload) :
    (parseRequest p = none →
       (handleRequest ix embed gen rf p).response = Except.error "InvalidRequest" ∧
       (handleRequest ix embed gen rf p).embedCalls = 0 ∧
       (handleRequest ix embed gen rf p).genCalls = 0) ∧
    (∀ r, parseRequest p = some r → (r.top_k < 1 ∨ 10 < r.top_k) →
       (handleRequest ix embed gen rf p).response = Except.error "InvalidRequest" ∧
       (handleRequest ix embed gen rf p).embedCalls = 0 ∧
       (handleRequest ix embed gen rf p).genCalls = 0) := by
  constructor
  · intro hp
    simp [handleRequest, hp]
  · intro r hp hk
    have hv : validateRequest r = false := by
      rw [← Bool.not_eq_true]
      intro hva
      simp only [validateRequest, Bool.and_eq_true, decide_eq_true_eq] at hva
      obtain ⟨⟨⟨_, _⟩, h1⟩, h2⟩ := hva
      omega
    simp [handleRequest, hp, hv]

theorem claim_C6_witness :
    ((handleRequest sampleIndex embedStub genStub none
        ⟨none, some "j", some "c", some "ro", none, none⟩).embedCalls = 0 ∧
      (handleRequest sampleIndex embedStub genStub none
        ⟨none, some "j", some "c", some "ro", none, none⟩).genCalls = 0) ∧
    ((handleRequest sampleIndex embedStub genStub none
        ⟨some "r", some "j", some "c", some "ro", none, some 0⟩).embedCalls = 0 ∧
      (handleRequest sampleIndex embedStub genStub none
        ⟨some "r", some "j", some "c", some "ro", none, some 0⟩).genCalls = 0) :=
  ⟨⟨((claim_C6 sampleIndex embedStub genStub none
        ⟨none, some "j", some "c", some "ro", none, none⟩).1 rfl).2.1,
    ((claim_C6 sampleIndex embedStub genStub none
        ⟨none, some "j", some "c", some "ro", none, none⟩).1 rfl).2.2⟩,
   ⟨((claim_C6 sampleIndex embedStub genStub none
        ⟨some "r", some "j", some "c", some "ro", none, some 0⟩).2
        ⟨"r", "j", "c", "ro", "experienced", 0⟩ rfl (by decide)).2.1,
    ((claim_C6 sampleIndex embedStub genStub none
        ⟨some "r", some "j", some "c", some "ro", none, some 0⟩).2
        ⟨"r", "j", "c", "ro", "experienced", 0⟩ rfl (by decide)).2.2⟩⟩

end PCG
